import Mathlib

/-
Verification of the imagedb chunking / integrity / quota core.

The definitions below are a shallow embedding of the TypeScript sources:
  - src/services/chunking.ts   (ChunkingService)
  - src/services/upload.ts     (UploadService, QuotaService)
  - the ArkivStorage backend cited by the claims (storeChunk / getAllChunks /
    storeMetadata / getMetadata / calculateExpirationBlock)

Buffers are lists of byte values (Nat), SHA-256 is implemented concretely
(crypto.createHash('sha256')...digest('hex')), JavaScript Maps are association
lists, and the nondeterministic environment (crypto.randomUUID, Date.now,
storage success or failure of each write) is an explicit Env record.
-/

/-! ## SHA-256 (crypto.createHash('sha256').update(data).digest('hex')) -/

/-- Arithmetic is on 32-bit words represented as Nat mod 2^32. -/
def M32 : Nat := 4294967296

/-- Rotate a 32-bit word right by n positions. -/
def rotr (n x : Nat) : Nat := ((x >>> n) ||| (x <<< (32 - n))) % M32

def bsig0 (x : Nat) : Nat := (rotr 2 x) ^^^ (rotr 13 x) ^^^ (rotr 22 x)

def bsig1 (x : Nat) : Nat := (rotr 6 x) ^^^ (rotr 11 x) ^^^ (rotr 25 x)

def ssig0 (x : Nat) : Nat := (rotr 7 x) ^^^ (rotr 18 x) ^^^ (x >>> 3)

def ssig1 (x : Nat) : Nat := (rotr 17 x) ^^^ (rotr 19 x) ^^^ (x >>> 10)

def chFn (x y z : Nat) : Nat := (x &&& y) ^^^ ((x ^^^ 4294967295) &&& z)

def majFn (x y z : Nat) : Nat := (x &&& y) ^^^ (x &&& z) ^^^ (y &&& z)

/-- The 64 SHA-256 round constants (fractional parts of the cube roots of the
first 64 primes), written in decimal. -/
def sha256K : List Nat :=
  [1116352408, 1899447441, 3049323471, 3921009573, 961987163, 1508970993, 2453635748,
   2870763221, 3624381080, 310598401, 607225278, 1426881987, 1925078388, 2162078206,
   2614888103, 3248222580, 3835390401, 4022224774, 264347078, 604807628, 770255983,
   1249150122, 1555081692, 1996064986, 2554220882, 2821834349, 2952996808, 3210313671,
   3336571891, 3584528711, 113926993, 338241895, 666307205, 773529912, 1294757372,
   1396182291, 1695183700, 1986661051, 2177026350, 2456956037, 2730485921, 2820302411,
   3259730800, 3345764771, 3516065817, 3600352804, 4094571909, 275423344, 430227734,
   506948616, 659060556, 883997877, 958139571, 1322822218, 1537002063, 1747873779,
   1955562222, 2024104815, 2227730452, 2361852424, 2428436474, 2756734187, 3204031479,
   3329325298]

/-- The eight 32-bit working variables a..h of the compression function. -/
structure Hash8 where
  a : Nat
  b : Nat
  c : Nat
  d : Nat
  e : Nat
  f : Nat
  g : Nat
  h : Nat
deriving DecidableEq

/-- SHA-256 initial hash value, in decimal. -/
def sha256H0 : Hash8 :=
  ⟨1779033703, 3144134277, 1013904242, 2773480762, 1359893119, 2600822924, 528734635,
   1541459225⟩

/-- Big-endian packing of bytes into 32-bit words. -/
def bytesToWords : List Nat → List Nat
  | b0 :: b1 :: b2 :: b3 :: rest =>
      (((b0 % 256) <<< 24) + ((b1 % 256) <<< 16) + ((b2 % 256) <<< 8) + (b3 % 256))
        :: bytesToWords rest
  | _ => []

/-- Message-schedule extension: appends n more words to the 16 block words. -/
def extendW (ws : List Nat) : Nat → List Nat
  | 0 => ws
  | n + 1 =>
      let t := ws.length
      extendW
        (ws ++ [(ssig1 (ws.getD (t - 2) 0) + ws.getD (t - 7) 0 +
                 ssig0 (ws.getD (t - 15) 0) + ws.getD (t - 16) 0) % M32]) n

/-- One round of the SHA-256 compression function. -/
def sha256Round (s : Hash8) (kt wt : Nat) : Hash8 :=
  let t1 := (s.h + bsig1 s.e + chFn s.e s.f s.g + kt + wt) % M32
  let t2 := (bsig0 s.a + majFn s.a s.b s.c) % M32
  ⟨(t1 + t2) % M32, s.a, s.b, s.c, (s.d + t1) % M32, s.e, s.f, s.g⟩

/-- Compress one 64-byte block into the chaining value. -/
def compressBlock (s : Hash8) (block : List Nat) : Hash8 :=
  let w := extendW (bytesToWords block) 48
  let t := (sha256K.zip w).foldl (fun st p => sha256Round st p.1 p.2) s
  ⟨(s.a + t.a) % M32, (s.b + t.b) % M32, (s.c + t.c) % M32, (s.d + t.d) % M32,
   (s.e + t.e) % M32, (s.f + t.f) % M32, (s.g + t.g) % M32, (s.h + t.h) % M32⟩

/-- Big-endian 8-byte encoding of the bit length. -/
def be64 (n : Nat) : List Nat :=
  [(n >>> 56) % 256, (n >>> 48) % 256, (n >>> 40) % 256, (n >>> 32) % 256,
   (n >>> 24) % 256, (n >>> 16) % 256, (n >>> 8) % 256, n % 256]

/-- SHA-256 padding: 0x80, zeros to 56 mod 64, then the 64-bit bit length. -/
def padMessage (msg : List Nat) : List Nat :=
  msg ++ 128 :: List.replicate ((119 - msg.length % 64) % 64) 0 ++ be64 (msg.length * 8)

/-- Process the padded message 64 bytes at a time (fuel bounds the block count). -/
def processGo (fuel : Nat) (s : Hash8) (bs : List Nat) : Hash8 :=
  match fuel, bs with
  | _, [] => s
  | 0, _ => s
  | f + 1, bs => processGo f (compressBlock s (bs.take 64)) (bs.drop 64)

def hexChar (n : Nat) : Char :=
  "0123456789abcdef".toList.getD n '0'

/-- Two lowercase hex characters for one byte. -/
def byteToHex (b : Nat) : List Char := [hexChar (b / 16 % 16), hexChar (b % 16)]

def wordToBytes (w : Nat) : List Nat :=
  [(w >>> 24) % 256, (w >>> 16) % 256, (w >>> 8) % 256, w % 256]

/-- SHA-256 digest of a byte sequence, as a lowercase hex string. -/
def sha256Hex (msg : List Nat) : String :=
  let padded := padMessage msg
  let s := processGo padded.length sha256H0 padded
  String.mk ((([s.a, s.b, s.c, s.d, s.e, s.f, s.g, s.h].map wordToBytes).flatten.map
    byteToHex).flatten)

/-! ## Configuration (CONFIG in src/types.ts, reproduced in README.md) -/

def MAX_FILE_SIZE : Nat := 25 * 1024 * 1024

def CHUNK_SIZE : Nat := 64 * 1024

def DEFAULT_BTL_DAYS : Nat := 7

def FREE_TIER_MAX_BYTES : Nat := 100 * 1024 * 1024

def FREE_TIER_MAX_UPLOADS_PER_DAY : Nat := 10

/-! ## Data model (src/types.ts shapes, as used by the services) -/

/-- ChunkEntity: one produced chunk. `id` is crypto.randomUUID() and
`created_at` is Date.now(), both taken from the environment. -/
structure ChunkRecord where
  id : String
  media_id : String
  chunk_index : Nat
  data : List Nat
  checksum : String
  created_at : Nat
  expiration_block : Nat
deriving DecidableEq

structure MediaMetadata where
  media_id : String
  filename : String
  content_type : String
  file_size : Nat
  chunk_count : Nat
  checksum : String
  created_at : Nat
  expiration_block : Nat
  btl_days : Nat
deriving DecidableEq

/-- MediaChunk as returned by the storage layer's getAllChunks. -/
structure MediaChunk where
  media_id : String
  chunk_index : Nat
  data : List Nat
  checksum : String
  expiration_block : Nat
deriving DecidableEq

structure UploadSession where
  media_id : String
  idempotency_key : String
  metadata : MediaMetadata
  chunks_received : List Nat
  completed : Bool
deriving DecidableEq

structure QuotaInfo where
  used_bytes : Nat
  max_bytes : Nat
  uploads_today : Nat
  max_uploads_per_day : Nat
deriving DecidableEq

structure QuotaCheck where
  allowed : Bool
  reason : Option String
deriving DecidableEq

structure UploadResult where
  success : Bool
  media_id : Option String
  error : Option String
deriving DecidableEq

structure GetResult where
  success : Bool
  buffer : Option (List Nat)
  metadata : Option MediaMetadata
  error : Option String
deriving DecidableEq

/-- One persisted chunk entity in the backing store. ArkivStorage.storeChunk
writes the attributes media_id, chunk_index and checksum next to the raw
payload; attr_chunk_index is the persisted chunk_index attribute value. -/
structure StoredChunk where
  media_id : String
  attr_chunk_index : Nat
  data : List Nat
  checksum : String
  expiration_block : Nat
deriving DecidableEq

/-- The backing entity store: persisted chunk entities and metadata entities. -/
structure StoreState where
  chunks : List StoredChunk
  metas : List MediaMetadata
deriving DecidableEq

/-- The nondeterministic environment of one initiateUpload call:
randomUUID results, the clock, and which storage writes succeed. -/
structure Env where
  freshMediaId : String
  chunkIds : Nat → String
  nowMs : Nat
  chunkOk : Nat → Bool
  metaOk : Bool

/-! ## Association-list maps (JavaScript Map semantics: insertion order,
set replaces in place, new keys appended at the end) -/

def lookupKey (k : String) : List (String × α) → Option α
  | [] => none
  | (k', v) :: rest => if k' == k then some v else lookupKey k rest

def setKey (k : String) (v : α) : List (String × α) → List (String × α)
  | [] => [(k, v)]
  | (k', v') :: rest => if k' == k then (k, v) :: rest else (k', v') :: setKey k v rest

abbrev QuotaState := List (String × QuotaInfo)

abbrev SessionMap := List (String × UploadSession)

/-- Process state shared by UploadService and QuotaService plus the store. -/
structure SysState where
  quota : QuotaState
  sessions : SessionMap
  store : StoreState
deriving DecidableEq

/-! ## ChunkingService (src/services/chunking.ts) -/

/-- ChunkingService.calculateChecksum. -/
def calculateChecksum (data : List Nat) : String := sha256Hex data

/-- The loop body of ChunkingService.chunkFile: walks the buffer in windows
of chunkSize bytes starting at offset i; chunk_index is i / chunkSize.
fuel bounds the iteration count (fileBuffer.length suffices for any
chunkSize >= 1; the TypeScript loop does not terminate for chunkSize = 0). -/
def chunkGo (env : Env) (media_id : String) (expiration_block : Nat) (chunkSize : Nat) :
    List Nat → Nat → Nat → List ChunkRecord
  | _, _, 0 => []
  | buf, i, fuel + 1 =>
    if buf.length = 0 then []
    else
      let chunkData := buf.take chunkSize
      { id := env.chunkIds (i / chunkSize)
        media_id := media_id
        chunk_index := i / chunkSize
        data := chunkData
        checksum := calculateChecksum chunkData
        created_at := env.nowMs
        expiration_block := expiration_block }
        :: chunkGo env media_id expiration_block chunkSize (buf.drop chunkSize)
             (i + chunkSize) fuel

/-- ChunkingService.chunkFile generalized over the chunk size read from CONFIG. -/
def chunkBuffer (env : Env) (fileBuffer : List Nat) (media_id : String)
    (expiration_block : Nat) (chunkSize : Nat) : List ChunkRecord :=
  chunkGo env media_id expiration_block chunkSize fileBuffer 0 fileBuffer.length

/-- ChunkingService.chunkFile (CONFIG.CHUNK_SIZE). -/
def chunkFile (env : Env) (fileBuffer : List Nat) (media_id : String)
    (expiration_block : Nat) : List ChunkRecord :=
  chunkBuffer env fileBuffer media_id expiration_block CHUNK_SIZE

/-- ChunkingService.createMetadata. chunk_count is
Math.ceil(fileBuffer.length / CONFIG.CHUNK_SIZE). -/
def createMetadata (media_id original_filename content_type : String)
    (fileBuffer : List Nat) (btl_days expiration_block nowMs : Nat) : MediaMetadata :=
  { media_id := media_id
    filename := original_filename
    content_type := content_type
    file_size := fileBuffer.length
    chunk_count := (fileBuffer.length + CHUNK_SIZE - 1) / CHUNK_SIZE
    checksum := calculateChecksum fileBuffer
    created_at := nowMs
    expiration_block := expiration_block
    btl_days := btl_days }

instance : DecidableRel (fun a b : ChunkRecord => a.chunk_index ≤ b.chunk_index) :=
  fun a b => Nat.decLe a.chunk_index b.chunk_index

instance : DecidableRel (fun a b : MediaChunk => a.chunk_index ≤ b.chunk_index) :=
  fun a b => Nat.decLe a.chunk_index b.chunk_index

/-- ChunkingService.reassembleFile: sorts by chunk_index ascending
(chunks.sort is a stable comparison sort) and concatenates the payloads. -/
def reassembleFile (chunks : List ChunkRecord) : List Nat :=
  ((List.insertionSort (fun a b => a.chunk_index ≤ b.chunk_index) chunks).map
    (fun c => c.data)).flatten

/-- ChunkingService.validateFileIntegrity: recompute SHA-256 of the
reassembled buffer and compare the full hex digests for equality. -/
def validateFileIntegrity (originalChecksum : String) (reassembledBuffer : List Nat) :
    Bool :=
  originalChecksum == calculateChecksum reassembledBuffer

/-! ## QuotaService (src/services/upload.ts, QuotaService class) -/

/-- The zeroed free-tier record created lazily for unseen users. -/
def freshQuota : QuotaInfo :=
  { used_bytes := 0
    max_bytes := FREE_TIER_MAX_BYTES
    uploads_today := 0
    max_uploads_per_day := FREE_TIER_MAX_UPLOADS_PER_DAY }

/-- QuotaService.getUserQuota: returns the record, inserting the fresh
free-tier record into the map when the user is unseen. -/
def getUserQuota (s : QuotaState) (userId : String) : QuotaInfo × QuotaState :=
  match lookupKey userId s with
  | some q => (q, s)
  | none => (freshQuota, setKey userId freshQuota s)

/-- QuotaService.getQuotaInfo: the observable counters of one user. -/
def getQuotaInfo (s : QuotaState) (userId : String) : QuotaInfo :=
  (getUserQuota s userId).1

/-- The byte-quota denial message built by checkQuota. -/
def byteQuotaReason (q : QuotaInfo) : String :=
  "Quota exceeded. Used: " ++ toString q.used_bytes ++ "/" ++ toString q.max_bytes ++
    " bytes"

/-- The daily-count denial message built by checkQuota. -/
def dailyQuotaReason (q : QuotaInfo) : String :=
  "Daily upload limit exceeded. Used: " ++ toString q.uploads_today ++ "/" ++
    toString q.max_uploads_per_day ++ " uploads"

/-- QuotaService.checkQuota: byte quota first, then the daily upload count. -/
def checkQuota (s : QuotaState) (userId : String) (fileSize : Nat) :
    QuotaCheck × QuotaState :=
  let quota := (getUserQuota s userId).1
  let s1 := (getUserQuota s userId).2
  if quota.used_bytes + fileSize > quota.max_bytes then
    ({ allowed := false, reason := some (byteQuotaReason quota) }, s1)
  else if quota.uploads_today ≥ quota.max_uploads_per_day then
    ({ allowed := false, reason := some (dailyQuotaReason quota) }, s1)
  else ({ allowed := true, reason := none }, s1)

/-- QuotaService.updateUsage: used_bytes += fileSize, uploads_today += 1. -/
def updateUsage (s : QuotaState) (userId : String) (fileSize : Nat) : QuotaState :=
  let q := (getUserQuota s userId).1
  let s1 := (getUserQuota s userId).2
  setKey userId
    { q with used_bytes := q.used_bytes + fileSize
             uploads_today := q.uploads_today + 1 } s1

/-! ## ArkivStorage (the backend cited by the claims) -/

/-- ArkivStorage.calculateExpirationBlock: an estimated current block
(2-second blocks) plus btlDays * BLOCKS_PER_DAY (43200). -/
def calculateExpirationBlock (nowMs btlDays : Nat) : Nat :=
  nowMs / 2000 + btlDays * 43200

/-- The entity ArkivStorage.storeChunk persists for one chunk: the persisted
chunk_index attribute is chunk.chunk_index + 1, not chunk.chunk_index. -/
def storedEntityOf (c : ChunkRecord) : StoredChunk :=
  { media_id := c.media_id
    attr_chunk_index := c.chunk_index + 1
    data := c.data
    checksum := c.checksum
    expiration_block := c.expiration_block }

/-- ArkivStorage.storeChunk: persists one entity carrying the payload and the
attributes media_id, checksum and chunk_index. -/
def storeChunk (store : StoreState) (c : ChunkRecord) : StoreState :=
  { store with chunks := store.chunks ++ [storedEntityOf c] }

/-- ArkivStorage.storeMetadata: persists the metadata entity. -/
def storeMetadata (store : StoreState) (m : MediaMetadata) : StoreState :=
  { store with metas := store.metas ++ [m] }

/-- ArkivStorage.getMetadata: first stored metadata entity whose media_id
attribute matches (query ... limit 1). -/
def getMetadata (store : StoreState) (media_id : String) : Option MediaMetadata :=
  store.metas.find? (fun m => m.media_id == media_id)

/-- ArkivStorage.getAllChunks: every stored chunk entity whose media_id
attribute matches, as MediaChunk records (chunk_index read back from the
persisted attribute), sorted by chunk_index ascending. It performs no
completeness check against metadata.chunk_count. -/
def getAllChunks (store : StoreState) (media_id : String) : List MediaChunk :=
  List.insertionSort (fun a b => a.chunk_index ≤ b.chunk_index)
    ((store.chunks.filter (fun e => e.media_id == media_id)).map
      (fun e =>
        { media_id := media_id
          chunk_index := e.attr_chunk_index
          data := e.data
          checksum := e.checksum
          expiration_block := e.expiration_block }))

/-! ## UploadService (src/services/upload.ts) -/

/-- UploadService.isValidImageType. -/
def isValidImageType (contentType : String) : Bool :=
  contentType == "image/jpeg" || contentType == "image/png"

/-- UploadService.findExistingSession. -/
def findExistingSession (sessions : SessionMap) (idempotencyKey : String) :
    Option UploadSession :=
  lookupKey idempotencyKey sessions

/-- UploadSessionTracker: record one stored chunk index in the session
(Set.add semantics: no-op when the index is already present). -/
def recordChunkStored (key : String) (idx : Nat) (sessions : SessionMap) : SessionMap :=
  match lookupKey key sessions with
  | some s =>
      setKey key
        { s with chunks_received :=
            if s.chunks_received.contains idx then s.chunks_received
            else s.chunks_received ++ [idx] } sessions
  | none => sessions

/-- Mark the session completed (session.completed = true). -/
def markCompleted (key : String) (sessions : SessionMap) : SessionMap :=
  match lookupKey key sessions with
  | some s => setKey key { s with completed := true } sessions
  | none => sessions

/-- The chunk-storing loop of initiateUpload: stores each chunk in order,
recording each success in the session; stops at the first storage failure
(env.chunkOk gives each write's outcome). Returns (all-succeeded, sessions,
store) at the point the loop ended. -/
def storeChunksLoop (env : Env) (key : String) :
    List ChunkRecord → SessionMap → StoreState → Bool × SessionMap × StoreState
  | [], sessions, store => (true, sessions, store)
  | c :: cs, sessions, store =>
    if env.chunkOk c.chunk_index then
      storeChunksLoop env key cs (recordChunkStored key c.chunk_index sessions)
        (storeChunk store c)
    else (false, sessions, store)

/-- The fresh-upload path of UploadService.initiateUpload (after the guards,
the quota check and the session lookup): create metadata and a session, chunk
the buffer, store the chunks, then store metadata, mark the session completed
and commit quota usage; any storage failure returns the upload-failed error
with the partial session left in place and no quota commit. -/
def runFreshUpload (env : Env) (st : SysState) (fileBuffer : List Nat)
    (filename contentType idempotencyKey userId : String) (btlDays : Nat) :
    UploadResult × SysState :=
  let media_id := env.freshMediaId
  let expiration_block := calculateExpirationBlock env.nowMs btlDays
  let metadata := createMetadata media_id filename contentType fileBuffer btlDays
    expiration_block env.nowMs
  let session : UploadSession :=
    { media_id := media_id
      idempotency_key := idempotencyKey
      metadata := metadata
      chunks_received := []
      completed := false }
  let sessions1 := setKey idempotencyKey session st.sessions
  let chunks := chunkFile env fileBuffer media_id expiration_block
  match storeChunksLoop env idempotencyKey chunks sessions1 st.store with
  | (false, sessions2, store2) =>
      ({ success := false, media_id := none, error := some "Upload failed: storage error" },
       { st with sessions := sessions2, store := store2 })
  | (true, sessions2, store2) =>
      if env.metaOk then
        ({ success := true, media_id := some media_id, error := none },
         { quota := updateUsage st.quota userId fileBuffer.length
           sessions := markCompleted idempotencyKey sessions2
           store := storeMetadata store2 metadata })
      else
        ({ success := false, media_id := none, error := some "Upload failed: storage error" },
         { st with sessions := sessions2, store := store2 })

/-- UploadService.initiateUpload: size guard, content-type guard, quota check
(before the idempotency lookup), idempotent-replay short-circuit, then the
fresh-upload path. -/
def initiateUpload (env : Env) (st : SysState) (fileBuffer : List Nat)
    (filename contentType idempotencyKey userId : String) (btlDays : Nat) :
    UploadResult × SysState :=
  if fileBuffer.length > MAX_FILE_SIZE then
    ({ success := false, media_id := none
       error := some ("File too large. Max size: " ++ toString MAX_FILE_SIZE ++ " bytes") },
     st)
  else if !(isValidImageType contentType) then
    ({ success := false, media_id := none
       error := some "Only JPEG and PNG files are supported" }, st)
  else
    let quotaCheckRes := (checkQuota st.quota userId fileBuffer.length).1
    let quota1 := (checkQuota st.quota userId fileBuffer.length).2
    if !quotaCheckRes.allowed then
      ({ success := false, media_id := none, error := quotaCheckRes.reason },
       { st with quota := quota1 })
    else
      match findExistingSession st.sessions idempotencyKey with
      | some existingSession =>
          ({ success := true, media_id := some existingSession.media_id, error := none },
           { st with quota := quota1 })
      | none =>
          runFreshUpload env { st with quota := quota1 } fileBuffer filename
            contentType idempotencyKey userId btlDays

/-- The MediaChunk-to-ChunkEntity conversion inside UploadService.getMedia
(the base64 payload decodes back to the stored bytes). -/
def toChunkEntities (chunks : List MediaChunk) : List ChunkRecord :=
  chunks.map (fun c =>
    { id := ""
      media_id := c.media_id
      chunk_index := c.chunk_index
      data := c.data
      checksum := c.checksum
      created_at := 0
      expiration_block := c.expiration_block })

/-- UploadService.getMedia: metadata lookup, chunk fetch (only an empty list
counts as missing), reassembly, then the whole-file integrity check. -/
def getMedia (store : StoreState) (media_id : String) : GetResult :=
  match getMetadata store media_id with
  | none =>
      { success := false, buffer := none, metadata := none
        error := some "Media not found or expired" }
  | some metadata =>
    let chunks := getAllChunks store media_id
    if chunks.length == 0 then
      { success := false, buffer := none, metadata := none
        error := some "Media chunks not found or incomplete" }
    else
      let reassembledBuffer := reassembleFile (toChunkEntities chunks)
      if !(validateFileIntegrity metadata.checksum reassembledBuffer) then
        { success := false, buffer := none, metadata := none
          error := some "File integrity check failed" }
      else
        { success := true, buffer := some reassembledBuffer
          metadata := some metadata, error := none }

/-! ## Chunk-codec lemmas -/

lemma chunkGo_nil (env : Env) (m : String) (e C i fuel : Nat) :
    chunkGo env m e C [] i fuel = [] := by
  cases fuel <;> simp [chunkGo]

lemma chunkGo_flatten (env : Env) (m : String) (e C : Nat) (hC : 0 < C) :
    ∀ (fuel : Nat) (buf : List Nat) (i : Nat), buf.length ≤ fuel →
      ((chunkGo env m e C buf i fuel).map (fun c => c.data)).flatten = buf := by
  intro fuel
  induction fuel with
  | zero =>
      intro buf i h
      have : buf = [] := List.length_eq_zero.mp (Nat.le_zero.mp h)
      subst this
      simp [chunkGo]
  | succ f ih =>
      intro buf i h
      by_cases hb : buf.length = 0
      · have : buf = [] := List.length_eq_zero.mp hb
        subst this
        simp [chunkGo]
      · rw [chunkGo, if_neg hb]
        simp only [List.map_cons, List.flatten_cons]
        rw [ih (buf.drop C) (i + C) (by simp; omega)]
        exact List.take_append_drop C buf

lemma chunkGo_length (env : Env) (m : String) (e C : Nat) (hC : 0 < C) :
    ∀ (fuel : Nat) (buf : List Nat) (i : Nat), buf.length ≤ fuel →
      (chunkGo env m e C buf i fuel).length = (buf.length + C - 1) / C := by
  intro fuel
  induction fuel with
  | zero =>
      intro buf i h
      have : buf = [] := List.length_eq_zero.mp (Nat.le_zero.mp h)
      subst this
      simp [chunkGo, Nat.div_eq_of_lt (by omega : C - 1 < C)]
  | succ f ih =>
      intro buf i h
      by_cases hb : buf.length = 0
      · have : buf = [] := List.length_eq_zero.mp hb
        subst this
        simp [chunkGo, Nat.div_eq_of_lt (by omega : C - 1 < C)]
      · rw [chunkGo, if_neg hb]
        simp only [List.length_cons]
        rw [ih (buf.drop C) (i + C) (by simp; omega)]
        simp only [List.length_drop]
        rcases le_or_lt buf.length C with hle | hlt
        · have h1 : buf.length - C = 0 := by omega
          rw [h1]
          rw [Nat.div_eq_of_lt (by omega : 0 + C - 1 < C)]
          rw [Nat.div_eq_of_lt_le (by omega : 1 * C ≤ buf.length + C - 1)
            (by omega : buf.length + C - 1 < (1 + 1) * C)]
        · have h1 : buf.length - C + C - 1 = buf.length - 1 := by omega
          have h2 : buf.length + C - 1 = (buf.length - 1) + C := by omega
          rw [h1, h2, Nat.add_div_right _ hC]

lemma chunkGo_data_lengths (env : Env) (m : String) (e C : Nat) (hC : 0 < C) :
    ∀ (fuel : Nat) (buf : List Nat) (i : Nat), buf.length ≤ fuel → 0 < buf.length →
      (chunkGo env m e C buf i fuel).map (fun c => c.data.length) =
        List.replicate ((buf.length + C - 1) / C - 1) C ++
          [buf.length - ((buf.length + C - 1) / C - 1) * C] := by
  intro fuel
  induction fuel with
  | zero => intro buf i h hpos; omega
  | succ f ih =>
      intro buf i h hpos
      have hb : ¬ buf.length = 0 := by omega
      rw [chunkGo, if_neg hb]
      simp only [List.map_cons]
      rcases le_or_lt buf.length C with hle | hlt
      · have hdrop : buf.drop C = [] := by
          apply List.length_eq_zero.mp
          simp
          omega
        have hn : (buf.length + C - 1) / C = 1 :=
          Nat.div_eq_of_lt_le (by omega : 1 * C ≤ buf.length + C - 1)
            (by omega : buf.length + C - 1 < (1 + 1) * C)
        rw [hdrop, chunkGo_nil, hn]
        simp [List.length_take]
        omega
      · have hlen : (buf.drop C).length ≤ f := by simp; omega
        have hpos' : 0 < (buf.drop C).length := by simp; omega
        rw [ih (buf.drop C) (i + C) hlen hpos']
        simp only [List.length_drop, List.length_take]
        have hmin : min C buf.length = C := by omega
        -- relate the ceiling counts of buf and buf.drop C
        have h1 : buf.length - C + C - 1 = buf.length - 1 := by omega
        have h2 : buf.length + C - 1 = (buf.length - 1) + C := by omega
        have hsucc : (buf.length + C - 1) / C = (buf.length - C + C - 1) / C + 1 := by
          rw [h1, h2, Nat.add_div_right _ hC]
        set n' := (buf.length - C + C - 1) / C with hn'
        have hn'pos : 0 < n' := by
          rw [hn']
          have : 1 * C ≤ buf.length - C + C - 1 := by omega
          have := Nat.le_div_iff_mul_le hC |>.mpr (by omega : 1 * C ≤ buf.length - C + C - 1)
          omega
        have hmul : (n' - 1) * C + C = n' * C := by
          have : n' - 1 + 1 = n' := by omega
          calc (n' - 1) * C + C = (n' - 1 + 1) * C := by rw [Nat.succ_mul]
            _ = n' * C := by rw [this]
        rw [hsucc, hmin]
        have hrep : n' + 1 - 1 = n' := by omega
        rw [hrep]
        have hn'm : n' - 1 + 1 = n' := by omega
        calc C :: (List.replicate (n' - 1) C ++ [buf.length - C - (n' - 1) * C])
            = List.replicate (n' - 1 + 1) C ++ [buf.length - C - (n' - 1) * C] := by
              simp [List.replicate_succ]
          _ = List.replicate n' C ++ [buf.length - n' * C] := by
              rw [hn'm]
              congr 1
              congr 1
              omega

lemma chunkGo_index_lb (env : Env) (m : String) (e C : Nat) (hC : 0 < C) :
    ∀ (fuel : Nat) (buf : List Nat) (i : Nat) (c : ChunkRecord),
      c ∈ chunkGo env m e C buf i fuel → i / C ≤ c.chunk_index := by
  intro fuel
  induction fuel with
  | zero => intro buf i c hc; simp [chunkGo] at hc
  | succ f ih =>
      intro buf i c hc
      by_cases hb : buf.length = 0
      · rw [chunkGo, if_pos hb] at hc
        simp at hc
      · rw [chunkGo, if_neg hb] at hc
        rcases List.mem_cons.mp hc with h | h
        · subst h; exact Nat.le_refl _
        · have h1 := ih (buf.drop C) (i + C) c h
          have h2 : i / C ≤ (i + C) / C := Nat.div_le_div_right (by omega)
          omega

lemma chunkGo_sorted (env : Env) (m : String) (e C : Nat) (hC : 0 < C) :
    ∀ (fuel : Nat) (buf : List Nat) (i : Nat),
      List.Sorted (fun a b : ChunkRecord => a.chunk_index ≤ b.chunk_index)
        (chunkGo env m e C buf i fuel) := by
  intro fuel
  induction fuel with
  | zero => intro buf i; simp [chunkGo, List.Sorted]
  | succ f ih =>
      intro buf i
      by_cases hb : buf.length = 0
      · rw [chunkGo, if_pos hb]; simp [List.Sorted]
      · rw [chunkGo, if_neg hb]
        rw [List.sorted_cons]
        constructor
        · intro b hbmem
          have h1 := chunkGo_index_lb env m e C hC f (buf.drop C) (i + C) b hbmem
          have h2 : i / C ≤ (i + C) / C := Nat.div_le_div_right (by omega)
          simp only []
          omega
        · exact ih (buf.drop C) (i + C)

lemma CHUNK_SIZE_pos : 0 < CHUNK_SIZE := by decide

/-- A sample nondeterministic environment used by concrete witnesses. -/
def sampleEnv : Env :=
  { freshMediaId := "mid1"
    chunkIds := fun _ => "cid"
    nowMs := 0
    chunkOk := fun _ => true
    metaOk := true }

/-- Claim C1: for every buffer B with 0 < len(B) <= MAX_FILE_SIZE, reassembling
the chunk sequence produced by chunking B with CHUNK_SIZE (reassembleFile
applied to chunkFile's output) yields a buffer bit-for-bit equal to B. -/
theorem chunkFile_reassembleFile_roundtrip (env : Env) (buf : List Nat)
    (m : String) (e : Nat) (h1 : 0 < buf.length) (h2 : buf.length ≤ MAX_FILE_SIZE) :
    reassembleFile (chunkFile env buf m e) = buf := by
  unfold reassembleFile chunkFile chunkBuffer
  rw [List.Sorted.insertionSort_eq
    (chunkGo_sorted env m e CHUNK_SIZE CHUNK_SIZE_pos buf.length buf 0)]
  exact chunkGo_flatten env m e CHUNK_SIZE CHUNK_SIZE_pos buf.length buf 0 (Nat.le_refl _)

theorem chunkFile_reassembleFile_roundtrip_witness :
    0 < ([7, 9] : List Nat).length ∧ ([7, 9] : List Nat).length ≤ MAX_FILE_SIZE ∧
      reassembleFile (chunkFile sampleEnv [7, 9] "m" 0) = [7, 9] :=
  ⟨by decide, by decide,
   chunkFile_reassembleFile_roundtrip sampleEnv [7, 9] "m" 0 (by decide) (by decide)⟩

lemma succ_div_helper (C q r : Nat) (hC : 0 < C) (hr1 : 1 ≤ r) (hr2 : r < C) :
    (C * q + r + C - 1) / C = q + 1 := by
  have e1 : (q + 1) * C = q * C + C := Nat.succ_mul _ _
  have e2 : (q + 1 + 1) * C = (q + 1) * C + C := Nat.succ_mul _ _
  have hcomm : C * q = q * C := Nat.mul_comm _ _
  exact Nat.div_eq_of_lt_le (by omega) (by omega)

lemma ceil_div_eq_div_succ (C len : Nat) (hC : 0 < C) (hr : len % C ≠ 0) :
    (len + C - 1) / C = len / C + 1 := by
  have hdm := Nat.div_add_mod len C
  have hmod : len % C < C := Nat.mod_lt len hC
  have h := succ_div_helper C (len / C) (len % C) hC (by omega) hmod
  rw [hdm] at h
  exact h

lemma last_chunk_size_eq_mod (C len : Nat) (hC : 0 < C) (hr : len % C ≠ 0) :
    len - ((len + C - 1) / C - 1) * C = len % C := by
  rw [ceil_div_eq_div_succ C len hC hr]
  rw [Nat.add_sub_cancel,
    Nat.sub_eq_iff_eq_add (Nat.div_mul_le_self len C)]
  exact (Nat.mod_add_div' len C).symm

/-- Claim C7: chunking yields exactly ceil(len/C) chunks; all data windows
except possibly the last have length exactly C and the last has length
len mod C when that is non-zero; the chunk_count recorded by createMetadata
equals the number of chunks chunkFile produces. -/
theorem chunkBuffer_count_and_sizes (env : Env) (buf : List Nat) (m : String)
    (e C : Nat) (hC : 0 < C) :
    (chunkBuffer env buf m e C).length = (buf.length + C - 1) / C ∧
    (0 < buf.length →
      (chunkBuffer env buf m e C).map (fun c => c.data.length) =
        List.replicate ((buf.length + C - 1) / C - 1) C ++
          [buf.length - ((buf.length + C - 1) / C - 1) * C]) ∧
    (buf.length % C ≠ 0 →
      buf.length - ((buf.length + C - 1) / C - 1) * C = buf.length % C) ∧
    (∀ (f ct : String) (b eb now e2 : Nat),
      (createMetadata m f ct buf b eb now).chunk_count =
        (chunkFile env buf m e2).length) := by
  refine ⟨?_, ?_, ?_, ?_⟩
  · exact chunkGo_length env m e C hC buf.length buf 0 (Nat.le_refl _)
  · intro hpos
    exact chunkGo_data_lengths env m e C hC buf.length buf 0 (Nat.le_refl _) hpos
  · intro hr
    exact last_chunk_size_eq_mod C buf.length hC hr
  · intro f ct b eb now e2
    unfold createMetadata chunkFile chunkBuffer
    rw [chunkGo_length env m e2 CHUNK_SIZE CHUNK_SIZE_pos buf.length buf 0 (Nat.le_refl _)]

theorem chunkBuffer_count_and_sizes_witness :
    0 < 3 ∧
      (chunkBuffer sampleEnv [5, 6, 7, 8] "m" 0 3).length = 2 ∧
      (chunkBuffer sampleEnv [5, 6, 7, 8] "m" 0 3).map (fun c => c.data.length) =
        [3, 1] ∧
      (createMetadata "m" "f" "image/png" [5, 6, 7, 8] 7 0 0).chunk_count =
        (chunkFile sampleEnv [5, 6, 7, 8] "m" 0).length := by
  have h := chunkBuffer_count_and_sizes sampleEnv [5, 6, 7, 8] "m" 0 3 (by decide)
  refine ⟨by decide, ?_, ?_, h.2.2.2 "f" "image/png" 7 0 0 0⟩
  · rw [h.1]
    decide
  · rw [h.2.1 (by decide)]
    decide

/-- The deterministic projection of a produced chunk: its index, its byte
payload and its hex checksum (the id and created_at fields come from
crypto.randomUUID() and Date.now() and differ between runs). -/
def chunkProj (c : ChunkRecord) : Nat × List Nat × String :=
  (c.chunk_index, c.data, c.checksum)

lemma chunkGo_proj_env (env1 env2 : Env) (m : String) (e C : Nat) :
    ∀ (fuel : Nat) (buf : List Nat) (i : Nat),
      (chunkGo env1 m e C buf i fuel).map chunkProj =
        (chunkGo env2 m e C buf i fuel).map chunkProj := by
  intro fuel
  induction fuel with
  | zero => intro buf i; simp [chunkGo]
  | succ f ih =>
      intro buf i
      by_cases hb : buf.length = 0
      · simp [chunkGo, hb]
      · rw [chunkGo, chunkGo, if_neg hb, if_neg hb]
        simp only [List.map_cons]
        rw [ih (buf.drop C) (i + C)]
        simp [chunkProj]

lemma chunkGo_checksum_eq (env : Env) (m : String) (e C : Nat) :
    ∀ (fuel : Nat) (buf : List Nat) (i : Nat) (c : ChunkRecord),
      c ∈ chunkGo env m e C buf i fuel → c.checksum = calculateChecksum c.data := by
  intro fuel
  induction fuel with
  | zero => intro buf i c hc; simp [chunkGo] at hc
  | succ f ih =>
      intro buf i c hc
      by_cases hb : buf.length = 0
      · rw [chunkGo, if_pos hb] at hc; simp at hc
      · rw [chunkGo, if_neg hb] at hc
        rcases List.mem_cons.mp hc with h | h
        · subst h; rfl
        · exact ih (buf.drop C) (i + C) c h

/-- Claim C9: chunking is deterministic — two runs of chunkFile on the same
buffer (under any two environments, i.e. any outcomes of randomUUID and the
clock) produce the same ordered sequence of (chunk_index, data, checksum)
triples, and every checksum is the SHA-256 lowercase hex digest of exactly
that chunk's payload. -/
theorem chunkFile_deterministic (env1 env2 : Env) (buf : List Nat) (m : String)
    (e : Nat) :
    (chunkFile env1 buf m e).map chunkProj = (chunkFile env2 buf m e).map chunkProj ∧
    ∀ c ∈ chunkFile env1 buf m e, c.checksum = calculateChecksum c.data := by
  constructor
  · exact chunkGo_proj_env env1 env2 m e CHUNK_SIZE buf.length buf 0
  · intro c hc
    exact chunkGo_checksum_eq env1 m e CHUNK_SIZE buf.length buf 0 c hc

/-- A second sample environment, with different randomUUID and clock outcomes. -/
def sampleEnvAlt : Env :=
  { freshMediaId := "mid2"
    chunkIds := fun k => toString k
    nowMs := 123456
    chunkOk := fun _ => true
    metaOk := true }

theorem chunkFile_deterministic_witness :
    (chunkFile sampleEnv [1, 2, 3] "m" 0).map chunkProj =
      (chunkFile sampleEnvAlt [1, 2, 3] "m" 0).map chunkProj ∧
    ((chunkFile sampleEnv [1, 2, 3] "m" 0).map (fun c => c.id) = ["cid"] ∧
      (chunkFile sampleEnvAlt [1, 2, 3] "m" 0).map (fun c => c.id) = ["0"]) :=
  ⟨(chunkFile_deterministic sampleEnv sampleEnvAlt [1, 2, 3] "m" 0).1,
   by decide, by decide⟩

/-! ## Association-map and quota-ledger lemmas -/

lemma lookupKey_setKey (k u : String) (v : α) :
    ∀ s : List (String × α),
      lookupKey u (setKey k v s) = if k = u then some v else lookupKey u s := by
  intro s
  induction s with
  | nil =>
      by_cases hu : k = u <;> simp [setKey, lookupKey, hu, beq_iff_eq]
  | cons hd tl ih =>
      obtain ⟨k', v'⟩ := hd
      by_cases hk : k' = k
      · subst hk
        by_cases hu : k' = u <;> simp [setKey, lookupKey, hu, beq_iff_eq]
      · by_cases hu : k' = u
        · subst hu
          have hku : ¬ k = k' := fun h => hk h.symm
          simp [setKey, lookupKey, hk, hku, beq_iff_eq]
        · simp [setKey, lookupKey, hk, hu, beq_iff_eq, ih]

lemma getQuotaInfo_getUserQuota_snd (s : QuotaState) (uid u : String) :
    getQuotaInfo (getUserQuota s uid).2 u = getQuotaInfo s u := by
  unfold getQuotaInfo getUserQuota
  cases h : lookupKey uid s with
  | some q => simp [h]
  | none =>
      simp only [h]
      rw [lookupKey_setKey]
      by_cases hu : uid = u
      · subst hu
        simp [h]
      · rw [if_neg hu]
        cases h2 : lookupKey u s <;> simp [h2]

lemma checkQuota_snd (s : QuotaState) (uid : String) (n : Nat) :
    (checkQuota s uid n).2 = (getUserQuota s uid).2 := by
  simp only [checkQuota]
  split
  · rfl
  · split <;> rfl

lemma getQuotaInfo_checkQuota (s : QuotaState) (uid : String) (n : Nat) (u : String) :
    getQuotaInfo (checkQuota s uid n).2 u = getQuotaInfo s u := by
  rw [checkQuota_snd]
  exact getQuotaInfo_getUserQuota_snd s uid u

lemma checkQuota_fst (s : QuotaState) (uid : String) (n : Nat) :
    (checkQuota s uid n).1 =
      (if (getQuotaInfo s uid).used_bytes + n > (getQuotaInfo s uid).max_bytes then
        { allowed := false, reason := some (byteQuotaReason (getQuotaInfo s uid)) }
      else if (getQuotaInfo s uid).uploads_today ≥
          (getQuotaInfo s uid).max_uploads_per_day then
        { allowed := false, reason := some (dailyQuotaReason (getQuotaInfo s uid)) }
      else { allowed := true, reason := none }) := by
  simp only [checkQuota, getQuotaInfo]
  split
  · rfl
  · split <;> rfl

lemma getQuotaInfo_updateUsage_self (s : QuotaState) (uid : String) (n : Nat) :
    getQuotaInfo (updateUsage s uid n) uid =
      { getQuotaInfo s uid with
          used_bytes := (getQuotaInfo s uid).used_bytes + n
          uploads_today := (getQuotaInfo s uid).uploads_today + 1 } := by
  simp only [updateUsage, getQuotaInfo, getUserQuota]
  cases h : lookupKey uid s with
  | some q => simp [h, lookupKey_setKey]
  | none => simp [h, lookupKey_setKey]

lemma getQuotaInfo_updateUsage_ne (s : QuotaState) (uid : String) (n : Nat)
    (u : String) (hu : u ≠ uid) :
    getQuotaInfo (updateUsage s uid n) u = getQuotaInfo s u := by
  have hne : ¬ uid = u := fun h => hu h.symm
  simp only [updateUsage, getQuotaInfo, getUserQuota]
  cases h : lookupKey uid s with
  | some q =>
      simp only [h]
      rw [lookupKey_setKey]
      rw [if_neg hne]
      cases h2 : lookupKey u s <;> simp [h2]
  | none =>
      simp only [h]
      rw [lookupKey_setKey, lookupKey_setKey]
      rw [if_neg hne, if_neg hne]
      cases h2 : lookupKey u s <;> simp [h2]

/-- Claim C5: checkQuota denies exactly when used_bytes + incoming > max_bytes
or uploads_today >= max_uploads_per_day, byte quota checked first (so when
both are exceeded the byte-quota reason is returned); a user at
used_bytes = max_bytes - 10 is allowed a 10-byte upload and denied an 11-byte
one; a user at the daily-count limit is denied regardless of size; and
checkQuota never changes any user's observable quota counters. -/
theorem checkQuota_characterization (s : QuotaState) (uid : String) (n : Nat) :
    ((checkQuota s uid n).1.allowed = false ↔
      (getQuotaInfo s uid).used_bytes + n > (getQuotaInfo s uid).max_bytes ∨
        (getQuotaInfo s uid).uploads_today ≥
          (getQuotaInfo s uid).max_uploads_per_day) ∧
    ((getQuotaInfo s uid).used_bytes + n > (getQuotaInfo s uid).max_bytes →
      (checkQuota s uid n).1.reason = some (byteQuotaReason (getQuotaInfo s uid))) ∧
    ((getQuotaInfo s uid).uploads_today ≥ (getQuotaInfo s uid).max_uploads_per_day →
      (checkQuota s uid n).1.allowed = false) ∧
    ((getQuotaInfo s uid).used_bytes = (getQuotaInfo s uid).max_bytes - 10 →
      10 ≤ (getQuotaInfo s uid).max_bytes →
      (getQuotaInfo s uid).uploads_today < (getQuotaInfo s uid).max_uploads_per_day →
      (checkQuota s uid 10).1.allowed = true ∧
        (checkQuota s uid 11).1.allowed = false) ∧
    (∀ u, getQuotaInfo (checkQuota s uid n).2 u = getQuotaInfo s u) := by
  have key : ∀ n' : Nat, ((checkQuota s uid n').1.allowed = false ↔
      (getQuotaInfo s uid).used_bytes + n' > (getQuotaInfo s uid).max_bytes ∨
        (getQuotaInfo s uid).uploads_today ≥
          (getQuotaInfo s uid).max_uploads_per_day) := by
    intro n'
    rw [checkQuota_fst]
    by_cases h1 : (getQuotaInfo s uid).used_bytes + n' > (getQuotaInfo s uid).max_bytes
    · rw [if_pos h1]
      simp [h1]
    · rw [if_neg h1]
      by_cases h2 : (getQuotaInfo s uid).uploads_today ≥
          (getQuotaInfo s uid).max_uploads_per_day
      · rw [if_pos h2]
        simp [h1, h2]
      · rw [if_neg h2]
        simp [h1, h2]
  refine ⟨key n, ?_, ?_, ?_, fun u => getQuotaInfo_checkQuota s uid n u⟩
  · intro h
    rw [checkQuota_fst, if_pos h]
  · intro h
    exact (key n).mpr (Or.inr h)
  · intro h1 h2 h3
    constructor
    · cases hA : (checkQuota s uid 10).1.allowed
      · exfalso
        rcases (key 10).mp hA with hc | hc <;> omega
      · rfl
    · exact (key 11).mpr (Or.inl (by omega))

/-- Quota state of one user 10 bytes below the byte cap. -/
def boundaryQuota : QuotaState :=
  [("u", { used_bytes := 90, max_bytes := 100, uploads_today := 0,
           max_uploads_per_day := 10 })]

theorem checkQuota_characterization_witness :
    (getQuotaInfo boundaryQuota "u").used_bytes =
        (getQuotaInfo boundaryQuota "u").max_bytes - 10 ∧
      (checkQuota boundaryQuota "u" 10).1.allowed = true ∧
      (checkQuota boundaryQuota "u" 11).1.allowed = false ∧
      (checkQuota boundaryQuota "u" 11).1.reason =
        some (byteQuotaReason (getQuotaInfo boundaryQuota "u")) := by
  have h := checkQuota_characterization boundaryQuota "u" 11
  have hb := h.2.2.2.1 (by decide) (by decide) (by decide)
  exact ⟨by decide, hb.1, hb.2, h.2.1 (by decide)⟩

/-! ## Upload-orchestrator lemmas -/

lemma storeChunksLoop_true_iff (env : Env) (key : String) :
    ∀ (cs : List ChunkRecord) (sess : SessionMap) (store : StoreState),
      (storeChunksLoop env key cs sess store).1 = true ↔
        ∀ c ∈ cs, env.chunkOk c.chunk_index = true := by
  intro cs
  induction cs with
  | nil => intro sess store; simp [storeChunksLoop]
  | cons c cs ih =>
      intro sess store
      by_cases hok : env.chunkOk c.chunk_index = true
      · simp [storeChunksLoop, hok, ih]
      · simp [storeChunksLoop, hok]

lemma storeChunksLoop_chunks_grow (env : Env) (key : String) :
    ∀ (cs : List ChunkRecord) (sess : SessionMap) (store : StoreState)
      (e : StoredChunk), e ∈ store.chunks →
        e ∈ (storeChunksLoop env key cs sess store).2.2.chunks := by
  intro cs
  induction cs with
  | nil => intro sess store e he; simpa [storeChunksLoop] using he
  | cons c cs ih =>
      intro sess store e he
      by_cases hok : env.chunkOk c.chunk_index = true
      · simp only [storeChunksLoop, hok, if_pos]
        exact ih _ _ e (by simp [storeChunk]; exact Or.inl he)
      · simp only [storeChunksLoop]
        rw [if_neg hok]
        exact he

lemma storeChunksLoop_stores_all (env : Env) (key : String) :
    ∀ (cs : List ChunkRecord) (sess : SessionMap) (store : StoreState),
      (storeChunksLoop env key cs sess store).1 = true →
        ∀ c ∈ cs, storedEntityOf c ∈ (storeChunksLoop env key cs sess store).2.2.chunks := by
  intro cs
  induction cs with
  | nil => intro sess store _ c hc; simp at hc
  | cons c0 cs ih =>
      intro sess store hall c hc
      by_cases hok : env.chunkOk c0.chunk_index = true
      · simp only [storeChunksLoop, hok, if_pos] at hall ⊢
        rcases List.mem_cons.mp hc with h | h
        · subst h
          exact storeChunksLoop_chunks_grow env key cs _ _ _
            (by simp [storeChunk])
        · exact ih _ _ hall c h
      · simp only [storeChunksLoop] at hall
        rw [if_neg hok] at hall
        simp at hall

lemma recordChunkStored_lookup_media (key : String) (idx : Nat) (sess : SessionMap)
    (k : String) :
    (lookupKey k (recordChunkStored key idx sess)).map (fun s => s.media_id) =
      (lookupKey k sess).map (fun s => s.media_id) := by
  unfold recordChunkStored
  cases h : lookupKey key sess with
  | none => rfl
  | some s =>
      rw [lookupKey_setKey]
      by_cases hk : key = k
      · subst hk
        simp [h]
      · simp [hk]

lemma storeChunksLoop_sessions_media (env : Env) (key : String) :
    ∀ (cs : List ChunkRecord) (sess : SessionMap) (store : StoreState) (k : String),
      (lookupKey k (storeChunksLoop env key cs sess store).2.1).map
          (fun s => s.media_id) =
        (lookupKey k sess).map (fun s => s.media_id) := by
  intro cs
  induction cs with
  | nil => intro sess store k; rfl
  | cons c cs ih =>
      intro sess store k
      by_cases hok : env.chunkOk c.chunk_index = true
      · simp only [storeChunksLoop, hok, if_pos]
        rw [ih]
        exact recordChunkStored_lookup_media key c.chunk_index sess k
      · simp only [storeChunksLoop]
        rw [if_neg hok]

lemma markCompleted_lookup_self (key : String) (sess : SessionMap) :
    lookupKey key (markCompleted key sess) =
      (lookupKey key sess).map (fun s => { s with completed := true }) := by
  unfold markCompleted
  cases h : lookupKey key sess with
  | none => simp [h]
  | some s => simp [h, lookupKey_setKey]

lemma runFreshUpload_cases (env : Env) (st : SysState) (buf : List Nat)
    (f ct key uid : String) (b : Nat) :
    ((runFreshUpload env st buf f ct key uid b).1.success = false →
      (runFreshUpload env st buf f ct key uid b).2.quota = st.quota) ∧
    ((runFreshUpload env st buf f ct key uid b).1.success = true →
      env.metaOk = true ∧
      (runFreshUpload env st buf f ct key uid b).1.media_id = some env.freshMediaId ∧
      (runFreshUpload env st buf f ct key uid b).2.quota =
        updateUsage st.quota uid buf.length ∧
      (runFreshUpload env st buf f ct key uid b).2.sessions =
        markCompleted key
          (storeChunksLoop env key
            (chunkFile env buf env.freshMediaId (calculateExpirationBlock env.nowMs b))
            (setKey key
              { media_id := env.freshMediaId
                idempotency_key := key
                metadata := createMetadata env.freshMediaId f ct buf b
                  (calculateExpirationBlock env.nowMs b) env.nowMs
                chunks_received := []
                completed := false } st.sessions)
            st.store).2.1 ∧
      (runFreshUpload env st buf f ct key uid b).2.store =
        storeMetadata
          (storeChunksLoop env key
            (chunkFile env buf env.freshMediaId (calculateExpirationBlock env.nowMs b))
            (setKey key
              { media_id := env.freshMediaId
                idempotency_key := key
                metadata := createMetadata env.freshMediaId f ct buf b
                  (calculateExpirationBlock env.nowMs b) env.nowMs
                chunks_received := []
                completed := false } st.sessions)
            st.store).2.2
          (createMetadata env.freshMediaId f ct buf b
            (calculateExpirationBlock env.nowMs b) env.nowMs) ∧
      (storeChunksLoop env key
        (chunkFile env buf env.freshMediaId (calculateExpirationBlock env.nowMs b))
        (setKey key
          { media_id := env.freshMediaId
            idempotency_key := key
            metadata := createMetadata env.freshMediaId f ct buf b
              (calculateExpirationBlock env.nowMs b) env.nowMs
            chunks_received := []
            completed := false } st.sessions)
        st.store).1 = true) := by
  simp only [runFreshUpload]
  rcases h : storeChunksLoop env key
      (chunkFile env buf env.freshMediaId (calculateExpirationBlock env.nowMs b))
      (setKey key
        { media_id := env.freshMediaId
          idempotency_key := key
          metadata := createMetadata env.freshMediaId f ct buf b
            (calculateExpirationBlock env.nowMs b) env.nowMs
          chunks_received := []
          completed := false } st.sessions)
      st.store with ⟨ok, sess2, store2⟩
  cases ok
  · simp [h]
  · cases hm : env.metaOk
    · simp [h, hm]
    · simp [h, hm]

lemma initiateUpload_replay (env : Env) (st : SysState) (buf : List Nat)
    (f ct key uid : String) (b : Nat) (s : UploadSession)
    (hsess : lookupKey key st.sessions = some s)
    (h1 : ¬ buf.length > MAX_FILE_SIZE) (h2 : isValidImageType ct = true)
    (h3 : (checkQuota st.quota uid buf.length).1.allowed = true) :
    initiateUpload env st buf f ct key uid b =
      ({ success := true, media_id := some s.media_id, error := none },
       { st with quota := (checkQuota st.quota uid buf.length).2 }) := by
  simp only [initiateUpload, findExistingSession]
  rw [if_neg h1]
  simp [h2, h3, hsess]

lemma initiateUpload_failure_quota (env : Env) (st : SysState) (buf : List Nat)
    (f ct key uid : String) (b : Nat)
    (hs : (initiateUpload env st buf f ct key uid b).1.success = false) (u : String) :
    getQuotaInfo (initiateUpload env st buf f ct key uid b).2.quota u =
      getQuotaInfo st.quota u := by
  by_cases h1 : buf.length > MAX_FILE_SIZE
  · simp [initiateUpload, h1]
  by_cases h2 : isValidImageType ct = true
  · by_cases h3 : (checkQuota st.quota uid buf.length).1.allowed = true
    · cases hsess : lookupKey key st.sessions with
      | some s =>
          rw [initiateUpload_replay env st buf f ct key uid b s hsess h1 h2 h3] at hs
          simp at hs
      | none =>
          have hrun : initiateUpload env st buf f ct key uid b =
              runFreshUpload env { st with quota := (checkQuota st.quota uid
                buf.length).2 } buf f ct key uid b := by
            simp only [initiateUpload, findExistingSession]
            rw [if_neg h1]
            simp [h2, h3, hsess]
          rw [hrun] at hs ⊢
          rw [(runFreshUpload_cases env _ buf f ct key uid b).1 hs]
          exact getQuotaInfo_checkQuota st.quota uid buf.length u
    · have h3' : (checkQuota st.quota uid buf.length).1.allowed = false :=
        Bool.not_eq_true _ ▸ Bool.eq_false_iff.mpr h3
      simp only [initiateUpload]
      rw [if_neg h1]
      simp only [h2, Bool.not_true, Bool.false_eq_true, if_neg, if_false]
      rw [h3']
      simp only [Bool.not_false, if_pos]
      exact getQuotaInfo_checkQuota st.quota uid buf.length u
  · have h2' : isValidImageType ct = false := Bool.eq_false_iff.mpr h2
    simp [initiateUpload, h1, h2']

lemma initiateUpload_success_fresh (env : Env) (st : SysState) (buf : List Nat)
    (f ct key uid : String) (b : Nat)
    (hsess : lookupKey key st.sessions = none)
    (hs : (initiateUpload env st buf f ct key uid b).1.success = true) :
    (initiateUpload env st buf f ct key uid b).1.media_id = some env.freshMediaId ∧
    buf.length ≤ MAX_FILE_SIZE ∧
    isValidImageType ct = true ∧
    (checkQuota st.quota uid buf.length).1.allowed = true ∧
    env.metaOk = true ∧
    (initiateUpload env st buf f ct key uid b).2.quota =
      updateUsage (checkQuota st.quota uid buf.length).2 uid buf.length ∧
    (∃ s', lookupKey key (initiateUpload env st buf f ct key uid b).2.sessions =
        some s' ∧ s'.media_id = env.freshMediaId ∧ s'.completed = true) ∧
    createMetadata env.freshMediaId f ct buf b
        (calculateExpirationBlock env.nowMs b) env.nowMs ∈
      (initiateUpload env st buf f ct key uid b).2.store.metas ∧
    (∀ c ∈ chunkFile env buf env.freshMediaId (calculateExpirationBlock env.nowMs b),
      storedEntityOf c ∈ (initiateUpload env st buf f ct key uid b).2.store.chunks) := by
  by_cases h1 : buf.length > MAX_FILE_SIZE
  · simp [initiateUpload, h1] at hs
  by_cases h2 : isValidImageType ct = true
  · by_cases h3 : (checkQuota st.quota uid buf.length).1.allowed = true
    · have hrun : initiateUpload env st buf f ct key uid b =
          runFreshUpload env
            { st with quota := (checkQuota st.quota uid buf.length).2 }
            buf f ct key uid b := by
        simp only [initiateUpload, findExistingSession]
        rw [if_neg h1]
        simp [h2, h3, hsess]
      rw [hrun] at hs ⊢
      have hc := (runFreshUpload_cases env
        { st with quota := (checkQuota st.quota uid buf.length).2 }
        buf f ct key uid b).2 hs
      obtain ⟨hmeta, hmid, hquota, hsessions, hstore, hloop⟩ := hc
      refine ⟨hmid, by omega, h2, h3, hmeta, hquota, ?_, ?_, ?_⟩
      · rw [hsessions, markCompleted_lookup_self]
        have hmedia := storeChunksLoop_sessions_media env key
          (chunkFile env buf env.freshMediaId (calculateExpirationBlock env.nowMs b))
          (setKey key
            { media_id := env.freshMediaId
              idempotency_key := key
              metadata := createMetadata env.freshMediaId f ct buf b
                (calculateExpirationBlock env.nowMs b) env.nowMs
              chunks_received := []
              completed := false } st.sessions)
          st.store key
        rw [lookupKey_setKey, if_pos rfl] at hmedia
        rcases hlk : lookupKey key (storeChunksLoop env key
            (chunkFile env buf env.freshMediaId
              (calculateExpirationBlock env.nowMs b))
            (setKey key
              { media_id := env.freshMediaId
                idempotency_key := key
                metadata := createMetadata env.freshMediaId f ct buf b
                  (calculateExpirationBlock env.nowMs b) env.nowMs
                chunks_received := []
                completed := false } st.sessions)
            st.store).2.1 with h0 | s'
        · rw [hlk] at hmedia
          simp at hmedia
        · rw [hlk] at hmedia
          simp at hmedia
          exact ⟨{ s' with completed := true }, by simp, by simpa using hmedia, rfl⟩
      · rw [hstore]
        simp [storeMetadata]
      · intro c hc
        rw [hstore]
        simp only [storeMetadata]
        exact storeChunksLoop_stores_all env key _ _ _ hloop c hc
    · have h3' : (checkQuota st.quota uid buf.length).1.allowed = false :=
        Bool.eq_false_iff.mpr h3
      simp only [initiateUpload] at hs
      rw [if_neg h1] at hs
      simp only [h2, Bool.not_true, Bool.false_eq_true, if_false] at hs
      rw [h3'] at hs
      simp at hs
  · have h2' : isValidImageType ct = false := Bool.eq_false_iff.mpr h2
    simp [initiateUpload, h1, h2'] at hs

lemma initiateUpload_success_replay (env : Env) (st : SysState) (buf : List Nat)
    (f ct key uid : String) (b : Nat) (s : UploadSession)
    (hsess : lookupKey key st.sessions = some s)
    (hs : (initiateUpload env st buf f ct key uid b).1.success = true) :
    (initiateUpload env st buf f ct key uid b).1.media_id = some s.media_id ∧
    (initiateUpload env st buf f ct key uid b).2 =
      { st with quota := (checkQuota st.quota uid buf.length).2 } := by
  by_cases h1 : buf.length > MAX_FILE_SIZE
  · simp [initiateUpload, h1] at hs
  by_cases h2 : isValidImageType ct = true
  · by_cases h3 : (checkQuota st.quota uid buf.length).1.allowed = true
    · rw [initiateUpload_replay env st buf f ct key uid b s hsess h1 h2 h3]
      exact ⟨rfl, rfl⟩
    · have h3' : (checkQuota st.quota uid buf.length).1.allowed = false :=
        Bool.eq_false_iff.mpr h3
      simp only [initiateUpload] at hs
      rw [if_neg h1] at hs
      simp only [h2, Bool.not_true, Bool.false_eq_true, if_false] at hs
      rw [h3'] at hs
      simp at hs
  · have h2' : isValidImageType ct = false := Bool.eq_false_iff.mpr h2
    simp [initiateUpload, h1, h2'] at hs

/-- Claim C6: a user's used_bytes and uploads_today never decrease across
initiateUpload (nor across checkQuota, which is observably read-only); the
counters change only when an upload fully completes on the fresh path (all
chunks stored, metadata persisted, env.metaOk), in which case used_bytes grows
by the full original byte length and uploads_today by exactly 1, other users'
counters are untouched; on any failed call or idempotent replay (existing
session) no commit occurs. -/
theorem quota_commit_only_on_complete (env : Env) (st : SysState) (buf : List Nat)
    (f ct key uid : String) (b : Nat) :
    (∀ u, (getQuotaInfo st.quota u).used_bytes ≤
        (getQuotaInfo (initiateUpload env st buf f ct key uid b).2.quota u).used_bytes ∧
      (getQuotaInfo st.quota u).uploads_today ≤
        (getQuotaInfo (initiateUpload env st buf f ct key uid b).2.quota
          u).uploads_today) ∧
    ((initiateUpload env st buf f ct key uid b).1.success = false →
      ∀ u, getQuotaInfo (initiateUpload env st buf f ct key uid b).2.quota u =
        getQuotaInfo st.quota u) ∧
    (∀ s, lookupKey key st.sessions = some s →
      ∀ u, getQuotaInfo (initiateUpload env st buf f ct key uid b).2.quota u =
        getQuotaInfo st.quota u) ∧
    ((initiateUpload env st buf f ct key uid b).1.success = true →
      lookupKey key st.sessions = none →
      (getQuotaInfo (initiateUpload env st buf f ct key uid b).2.quota uid).used_bytes =
          (getQuotaInfo st.quota uid).used_bytes + buf.length ∧
      (getQuotaInfo (initiateUpload env st buf f ct key uid b).2.quota
            uid).uploads_today =
          (getQuotaInfo st.quota uid).uploads_today + 1 ∧
      (∀ u, u ≠ uid →
        getQuotaInfo (initiateUpload env st buf f ct key uid b).2.quota u =
          getQuotaInfo st.quota u) ∧
      env.metaOk = true ∧
      createMetadata env.freshMediaId f ct buf b
          (calculateExpirationBlock env.nowMs b) env.nowMs ∈
        (initiateUpload env st buf f ct key uid b).2.store.metas ∧
      (∀ c ∈ chunkFile env buf env.freshMediaId
          (calculateExpirationBlock env.nowMs b),
        storedEntityOf c ∈
          (initiateUpload env st buf f ct key uid b).2.store.chunks)) ∧
    (∀ u, getQuotaInfo (checkQuota st.quota uid buf.length).2 u =
      getQuotaInfo st.quota u) ∧
    ((getQuotaInfo (updateUsage st.quota uid buf.length) uid).used_bytes =
        (getQuotaInfo st.quota uid).used_bytes + buf.length ∧
      (getQuotaInfo (updateUsage st.quota uid buf.length) uid).uploads_today =
        (getQuotaInfo st.quota uid).uploads_today + 1) := by
  have hfreshq : ∀ (hsess : lookupKey key st.sessions = none)
      (hs : (initiateUpload env st buf f ct key uid b).1.success = true),
      (getQuotaInfo (initiateUpload env st buf f ct key uid b).2.quota uid).used_bytes =
          (getQuotaInfo st.quota uid).used_bytes + buf.length ∧
        (getQuotaInfo (initiateUpload env st buf f ct key uid b).2.quota
            uid).uploads_today =
          (getQuotaInfo st.quota uid).uploads_today + 1 ∧
        ∀ u, u ≠ uid →
          getQuotaInfo (initiateUpload env st buf f ct key uid b).2.quota u =
            getQuotaInfo st.quota u := by
    intro hsess hs
    have hq := (initiateUpload_success_fresh env st buf f ct key uid b hsess hs).2.2.2.2.2.1
    rw [hq]
    rw [getQuotaInfo_updateUsage_self]
    refine ⟨?_, ?_, ?_⟩
    · rw [getQuotaInfo_checkQuota]
    · rw [getQuotaInfo_checkQuota]
    · intro u hu
      rw [getQuotaInfo_updateUsage_ne _ _ _ _ hu, getQuotaInfo_checkQuota]
  refine ⟨?_, initiateUpload_failure_quota env st buf f ct key uid b, ?_, ?_, ?_, ?_⟩
  · intro u
    cases hsucc : (initiateUpload env st buf f ct key uid b).1.success
    · rw [initiateUpload_failure_quota env st buf f ct key uid b hsucc u]
      omega
    · cases hsess : lookupKey key st.sessions with
      | some s =>
          have hrep := (initiateUpload_success_replay env st buf f ct key uid b s
            hsess hsucc).2
          have hobs : getQuotaInfo (initiateUpload env st buf f ct key uid
              b).2.quota u = getQuotaInfo st.quota u := by
            rw [hrep]
            exact getQuotaInfo_checkQuota st.quota uid buf.length u
          rw [hobs]
          omega
      | none =>
          by_cases hu : u = uid
          · subst hu
            have := hfreshq hsess hsucc
            omega
          · have heq := (hfreshq hsess hsucc).2.2 u hu
            rw [heq]
            omega
  · intro s hsess u
    cases hsucc : (initiateUpload env st buf f ct key uid b).1.success
    · exact initiateUpload_failure_quota env st buf f ct key uid b hsucc u
    · have hrep := (initiateUpload_success_replay env st buf f ct key uid b s
        hsess hsucc).2
      rw [hrep]
      exact getQuotaInfo_checkQuota st.quota uid buf.length u
  · intro hs hsess
    have hfresh := initiateUpload_success_fresh env st buf f ct key uid b hsess hs
    have hq := hfreshq hsess hs
    exact ⟨hq.1, hq.2.1, hq.2.2, hfresh.2.2.2.2.1, hfresh.2.2.2.2.2.2.2.1,
      hfresh.2.2.2.2.2.2.2.2⟩
  · intro u
    exact getQuotaInfo_checkQuota st.quota uid buf.length u
  · rw [getQuotaInfo_updateUsage_self]
    exact ⟨rfl, rfl⟩

/-- The all-empty initial process state. -/
def emptySt : SysState :=
  { quota := [], sessions := [], store := { chunks := [], metas := [] } }

theorem quota_commit_only_on_complete_witness :
    lookupKey "k" emptySt.sessions = none ∧
      (initiateUpload sampleEnv emptySt [7, 9] "f.png" "image/png" "k" "u" 7).1.success =
        true ∧
      (getQuotaInfo
          (initiateUpload sampleEnv emptySt [7, 9] "f.png" "image/png" "k" "u"
            7).2.quota "u").used_bytes =
        (getQuotaInfo emptySt.quota "u").used_bytes + 2 ∧
      (getQuotaInfo
          (initiateUpload sampleEnv emptySt [7, 9] "f.png" "image/png" "k" "u"
            7).2.quota "u").uploads_today =
        (getQuotaInfo emptySt.quota "u").uploads_today + 1 := by
  have h := quota_commit_only_on_complete sampleEnv emptySt [7, 9] "f.png" "image/png"
    "k" "u" 7
  have h4 := h.2.2.2.1 (by decide) (by decide)
  exact ⟨by decide, by decide, h4.1, h4.2.1⟩

/-- A user one upload below the daily limit, no sessions, empty store. -/
def nearLimitSt : SysState :=
  { quota := [("u",
      { used_bytes := 0
        max_bytes := 104857600
        uploads_today := 9
        max_uploads_per_day := 10 })]
    sessions := []
    store := { chunks := [], metas := [] } }

/-- Claim C3 counterexample: with the same idempotency key and file, the first
call succeeds and consumes the last daily-quota slot; the second call is
rejected by the quota check (which runs before the session lookup) instead of
returning the same media_id, so the two calls do not both succeed. -/
theorem initiateUpload_idempotent_counterexample :
    ((initiateUpload sampleEnv nearLimitSt [7] "f.png" "image/png" "k" "u"
        7).1.success = true ∧
      (initiateUpload sampleEnv nearLimitSt [7] "f.png" "image/png" "k" "u"
        7).1.media_id = some "mid1") ∧
    (initiateUpload sampleEnv
        (initiateUpload sampleEnv nearLimitSt [7] "f.png" "image/png" "k" "u" 7).2
        [7] "f.png" "image/png" "k" "u" 7).1.success = false ∧
    (initiateUpload sampleEnv
        (initiateUpload sampleEnv nearLimitSt [7] "f.png" "image/png" "k" "u" 7).2
        [7] "f.png" "image/png" "k" "u" 7).1.error =
      some (dailyQuotaReason
        { used_bytes := 1, max_bytes := 104857600, uploads_today := 10,
          max_uploads_per_day := 10 }) := by
  decide

/-- Claim C3 (amended): calling initiateUpload twice with the same idempotency
key and the same file returns the same media_id both times and increments
uploads_today by exactly 1 (and used_bytes by the byte length exactly once) —
provided the second call still passes the quota admission check, which the
code evaluates before the idempotency-session lookup; when the first completed
upload exhausted the quota, the replay is instead rejected with the quota
error (see the counterexample). -/
theorem initiateUpload_idempotent_replay (env1 env2 : Env) (st : SysState)
    (buf : List Nat) (f ct key uid : String) (b : Nat)
    (hsess : lookupKey key st.sessions = none)
    (hs1 : (initiateUpload env1 st buf f ct key uid b).1.success = true)
    (hq2 : (checkQuota (initiateUpload env1 st buf f ct key uid b).2.quota uid
      buf.length).1.allowed = true) :
    (initiateUpload env2 (initiateUpload env1 st buf f ct key uid b).2 buf f ct key
        uid b).1.success = true ∧
    (initiateUpload env2 (initiateUpload env1 st buf f ct key uid b).2 buf f ct key
        uid b).1.media_id = (initiateUpload env1 st buf f ct key uid b).1.media_id ∧
    (getQuotaInfo (initiateUpload env2 (initiateUpload env1 st buf f ct key uid
        b).2 buf f ct key uid b).2.quota uid).uploads_today =
      (getQuotaInfo st.quota uid).uploads_today + 1 ∧
    (getQuotaInfo (initiateUpload env2 (initiateUpload env1 st buf f ct key uid
        b).2 buf f ct key uid b).2.quota uid).used_bytes =
      (getQuotaInfo st.quota uid).used_bytes + buf.length := by
  have hfresh := initiateUpload_success_fresh env1 st buf f ct key uid b hsess hs1
  obtain ⟨hmid, hlen, hct, _, _, hquota1, ⟨s', hs', hsmid, _⟩, _, _⟩ := hfresh
  have hrep := initiateUpload_replay env2
    (initiateUpload env1 st buf f ct key uid b).2 buf f ct key uid b s' hs'
    (by omega) hct hq2
  have hobs : ∀ u, getQuotaInfo (initiateUpload env2
      (initiateUpload env1 st buf f ct key uid b).2 buf f ct key uid b).2.quota u =
      getQuotaInfo (initiateUpload env1 st buf f ct key uid b).2.quota u := by
    intro u
    rw [hrep]
    exact getQuotaInfo_checkQuota _ uid buf.length u
  refine ⟨by rw [hrep], ?_, ?_, ?_⟩
  · rw [hrep, hmid, hsmid]
  · rw [hobs uid, hquota1, getQuotaInfo_updateUsage_self, getQuotaInfo_checkQuota]
  · rw [hobs uid, hquota1, getQuotaInfo_updateUsage_self, getQuotaInfo_checkQuota]

theorem initiateUpload_idempotent_replay_witness :
    lookupKey "k" emptySt.sessions = none ∧
      (initiateUpload sampleEnv emptySt [7] "f.png" "image/png" "k" "u" 7).1.success =
        true ∧
      (initiateUpload sampleEnvAlt
          (initiateUpload sampleEnv emptySt [7] "f.png" "image/png" "k" "u" 7).2
          [7] "f.png" "image/png" "k" "u" 7).1.media_id =
        (initiateUpload sampleEnv emptySt [7] "f.png" "image/png" "k" "u"
          7).1.media_id ∧
      (getQuotaInfo (initiateUpload sampleEnvAlt
          (initiateUpload sampleEnv emptySt [7] "f.png" "image/png" "k" "u" 7).2
          [7] "f.png" "image/png" "k" "u" 7).2.quota "u").uploads_today =
        (getQuotaInfo emptySt.quota "u").uploads_today + 1 := by
  have h := initiateUpload_idempotent_replay sampleEnv sampleEnvAlt emptySt [7]
    "f.png" "image/png" "k" "u" 7 (by decide) (by decide) (by decide)
  exact ⟨by decide, by decide, h.2.1, h.2.2.1⟩

lemma getMetadata_append_fresh (store : StoreState) (md : MediaMetadata) (mid : String)
    (h : ∀ mrec ∈ store.metas, mrec.media_id ≠ mid) (hmd : md.media_id = mid) :
    getMetadata (storeMetadata store md) mid = some md := by
  unfold getMetadata storeMetadata
  simp only []
  rw [List.find?_append]
  have h1 : store.metas.find? (fun m => m.media_id == mid) = none := by
    rw [List.find?_eq_none]
    intro x hx
    simp [h x hx]
  rw [h1]
  simp [hmd]

lemma getAllChunks_of_no_chunks (store : StoreState) (mid : String)
    (h : store.chunks.filter (fun e => e.media_id == mid) = []) :
    getAllChunks store mid = [] := by
  unfold getAllChunks
  rw [h]
  rfl

lemma getMedia_incomplete_of_no_chunks (store : StoreState) (mid : String)
    (meta : MediaMetadata) (hmeta : getMetadata store mid = some meta)
    (hchunks : getAllChunks store mid = []) :
    getMedia store mid =
      { success := false, buffer := none, metadata := none
        error := some "Media chunks not found or incomplete" } := by
  unfold getMedia
  rw [hmeta, hchunks]
  rfl

/-- Claim C10: a zero-length buffer is accepted by initiateUpload (there is no
lower size bound): it produces zero chunks, metadata with chunk_count = 0 is
stored, quota commits 0 bytes but still increments uploads_today by 1, and the
returned media_id is unretrievable — getMedia fails with the
chunks-not-found/incomplete error on the resulting store, and on every store
holding metadata but no chunks for that media_id. -/
theorem initiateUpload_empty_buffer (env : Env) (st : SysState)
    (f ct key uid : String) (b : Nat)
    (hct : isValidImageType ct = true)
    (hq : (checkQuota st.quota uid 0).1.allowed = true)
    (hsess : lookupKey key st.sessions = none)
    (hm : env.metaOk = true)
    (hfmeta : ∀ mrec ∈ st.store.metas, mrec.media_id ≠ env.freshMediaId)
    (hfchunks : st.store.chunks.filter
      (fun e => e.media_id == env.freshMediaId) = []) :
    (initiateUpload env st [] f ct key uid b).1.success = true ∧
    (initiateUpload env st [] f ct key uid b).1.media_id = some env.freshMediaId ∧
    chunkFile env [] env.freshMediaId (calculateExpirationBlock env.nowMs b) = [] ∧
    getMetadata (initiateUpload env st [] f ct key uid b).2.store env.freshMediaId =
      some (createMetadata env.freshMediaId f ct [] b
        (calculateExpirationBlock env.nowMs b) env.nowMs) ∧
    (createMetadata env.freshMediaId f ct [] b
      (calculateExpirationBlock env.nowMs b) env.nowMs).chunk_count = 0 ∧
    (getQuotaInfo (initiateUpload env st [] f ct key uid b).2.quota uid).used_bytes =
      (getQuotaInfo st.quota uid).used_bytes ∧
    (getQuotaInfo (initiateUpload env st [] f ct key uid b).2.quota
        uid).uploads_today =
      (getQuotaInfo st.quota uid).uploads_today + 1 ∧
    getMedia (initiateUpload env st [] f ct key uid b).2.store env.freshMediaId =
      { success := false, buffer := none, metadata := none
        error := some "Media chunks not found or incomplete" } ∧
    (∀ (store2 : StoreState) (meta2 : MediaMetadata),
      getMetadata store2 env.freshMediaId = some meta2 →
      getAllChunks store2 env.freshMediaId = [] →
      getMedia store2 env.freshMediaId =
        { success := false, buffer := none, metadata := none
          error := some "Media chunks not found or incomplete" }) := by
  have hchunkfile : chunkFile env [] env.freshMediaId
      (calculateExpirationBlock env.nowMs b) = [] := by
    simp [chunkFile, chunkBuffer, chunkGo]
  have hrun : initiateUpload env st [] f ct key uid b =
      ({ success := true, media_id := some env.freshMediaId, error := none },
       { quota := updateUsage (checkQuota st.quota uid 0).2 uid 0
         sessions := markCompleted key (setKey key
           { media_id := env.freshMediaId
             idempotency_key := key
             metadata := createMetadata env.freshMediaId f ct [] b
               (calculateExpirationBlock env.nowMs b) env.nowMs
             chunks_received := []
             completed := false } st.sessions)
         store := storeMetadata st.store (createMetadata env.freshMediaId f ct [] b
           (calculateExpirationBlock env.nowMs b) env.nowMs) }) := by
    simp only [initiateUpload, findExistingSession, List.length_nil]
    rw [if_neg (by simp [MAX_FILE_SIZE])]
    simp only [hct, Bool.not_true, Bool.false_eq_true, if_false, hq, Bool.not_true,
      hsess]
    simp only [runFreshUpload, List.length_nil, hchunkfile, storeChunksLoop, hm,
      if_pos]
  have hmeta : getMetadata (initiateUpload env st [] f ct key uid b).2.store
      env.freshMediaId = some (createMetadata env.freshMediaId f ct [] b
        (calculateExpirationBlock env.nowMs b) env.nowMs) := by
    rw [hrun]
    exact getMetadata_append_fresh st.store _ _ hfmeta rfl
  have hnochunks : getAllChunks (initiateUpload env st [] f ct key uid b).2.store
      env.freshMediaId = [] := by
    rw [hrun]
    exact getAllChunks_of_no_chunks _ _ hfchunks
  refine ⟨by rw [hrun], by rw [hrun], hchunkfile, hmeta,
    by simp [createMetadata, CHUNK_SIZE], ?_, ?_, ?_, ?_⟩
  · rw [hrun]
    simp only []
    rw [getQuotaInfo_updateUsage_self, getQuotaInfo_checkQuota]
    simp
  · rw [hrun]
    simp only []
    rw [getQuotaInfo_updateUsage_self, getQuotaInfo_checkQuota]
  · exact getMedia_incomplete_of_no_chunks _ _ _ hmeta hnochunks
  · intro store2 meta2 h1 h2
    exact getMedia_incomplete_of_no_chunks _ _ _ h1 h2

theorem initiateUpload_empty_buffer_witness :
    isValidImageType "image/png" = true ∧
      (initiateUpload sampleEnv emptySt [] "f.png" "image/png" "k" "u" 7).1.success =
        true ∧
      getMedia (initiateUpload sampleEnv emptySt [] "f.png" "image/png" "k" "u"
          7).2.store "mid1" =
        { success := false, buffer := none, metadata := none
          error := some "Media chunks not found or incomplete" } ∧
      (getQuotaInfo (initiateUpload sampleEnv emptySt [] "f.png" "image/png" "k"
          "u" 7).2.quota "u").uploads_today =
        (getQuotaInfo emptySt.quota "u").uploads_today + 1 := by
  have h := initiateUpload_empty_buffer sampleEnv emptySt "f.png" "image/png" "k" "u" 7
    (by decide) (by decide) (by decide) (by decide) (by simp [emptySt])
    (by decide)
  exact ⟨by decide, h.1, h.2.2.2.2.2.2.2.1, h.2.2.2.2.2.2.1⟩

/-! ## Retrieval claims -/

lemma getAllChunks_length_ne_zero (store : StoreState) (mid : String)
    (h : getAllChunks store mid ≠ []) :
    ((getAllChunks store mid).length == 0) = false := by
  simp [List.length_eq_zero, h]

/-- Claim C4: with all fetched chunks present (a non-empty chunk list), if the
reassembled bytes do not hash (full lowercase-hex SHA-256 digest, compared in
full by string equality) to metadata.checksum, getMedia fails with the
integrity-failure error and returns no buffer; when the digest matches, the
buffer and metadata are returned. -/
theorem getMedia_integrity (store : StoreState) (mid : String) (meta : MediaMetadata)
    (hmeta : getMetadata store mid = some meta)
    (hne : getAllChunks store mid ≠ []) :
    (calculateChecksum (reassembleFile (toChunkEntities (getAllChunks store mid))) ≠
        meta.checksum →
      getMedia store mid =
        { success := false, buffer := none, metadata := none
          error := some "File integrity check failed" }) ∧
    (calculateChecksum (reassembleFile (toChunkEntities (getAllChunks store mid))) =
        meta.checksum →
      getMedia store mid =
        { success := true
          buffer := some (reassembleFile (toChunkEntities (getAllChunks store mid)))
          metadata := some meta, error := none }) ∧
    (∀ (c : String) (buf : List Nat),
      validateFileIntegrity c buf = (c == calculateChecksum buf)) := by
  refine ⟨?_, ?_, fun c buf => rfl⟩
  · intro hbad
    simp only [getMedia]
    rw [hmeta, getAllChunks_length_ne_zero store mid hne]
    have hv : validateFileIntegrity meta.checksum
        (reassembleFile (toChunkEntities (getAllChunks store mid))) = false := by
      simp [validateFileIntegrity, beq_iff_eq]
      exact fun h => hbad h.symm
    simp [hv]
  · intro hgood
    simp only [getMedia]
    rw [hmeta, getAllChunks_length_ne_zero store mid hne]
    have hv : validateFileIntegrity meta.checksum
        (reassembleFile (toChunkEntities (getAllChunks store mid))) = true := by
      simp [validateFileIntegrity, beq_iff_eq]
      exact hgood.symm
    simp [hv]

set_option maxRecDepth 16384

/-- A store whose single intact chunk does not hash to the stored whole-file
checksum (the second of two chunks is missing). -/
def missingChunkStore : StoreState :=
  { chunks := [{ media_id := "m", attr_chunk_index := 1, data := [7]
                 checksum := sha256Hex [7], expiration_block := 0 }]
    metas := [{ media_id := "m", filename := "f", content_type := "image/png"
                file_size := 2, chunk_count := 2, checksum := sha256Hex [7, 9]
                created_at := 0, expiration_block := 0, btl_days := 7 }] }

/-- Claim C2 counterexample: a media whose metadata records chunk_count = 2
while the store holds only one of the two chunks. getMedia does fail without
returning the truncated buffer, but with the integrity-failure error, not the
chunks-not-found/incomplete error the claim requires: the code treats only an
empty chunk list as missing. -/
theorem getMedia_missing_chunk_counterexample :
    (getMetadata missingChunkStore "m").map (fun m => m.chunk_count) = some 2 ∧
    (getAllChunks missingChunkStore "m").length = 1 ∧
    getMedia missingChunkStore "m" =
      { success := false, buffer := none, metadata := none
        error := some "File integrity check failed" } ∧
    (getMedia missingChunkStore "m").error ≠
      some "Media chunks not found or incomplete" := by
  decide

/-- Claim C2 (amended): when the backing store returns no chunks at all for a
stored media_id, getMedia fails with the chunks-not-found/incomplete error;
when some but not all chunks are returned, getMedia still never returns the
truncated buffer as success — but it fails with the integrity-failure error
(whenever the truncated reassembly does not hash to the whole-file checksum),
not the incomplete error; the two error messages are distinct. -/
theorem getMedia_incomplete_detection (store : StoreState) (mid : String)
    (meta : MediaMetadata) (hmeta : getMetadata store mid = some meta) :
    (getAllChunks store mid = [] →
      getMedia store mid =
        { success := false, buffer := none, metadata := none
          error := some "Media chunks not found or incomplete" }) ∧
    (getAllChunks store mid ≠ [] →
      calculateChecksum (reassembleFile (toChunkEntities (getAllChunks store mid))) ≠
        meta.checksum →
      getMedia store mid =
        { success := false, buffer := none, metadata := none
          error := some "File integrity check failed" }) ∧
    ("Media chunks not found or incomplete" : String) ≠
      "File integrity check failed" := by
  refine ⟨?_, ?_, by decide⟩
  · intro hempty
    exact getMedia_incomplete_of_no_chunks store mid meta hmeta hempty
  · intro hne hbad
    simp only [getMedia]
    rw [hmeta, getAllChunks_length_ne_zero store mid hne]
    have hv : validateFileIntegrity meta.checksum
        (reassembleFile (toChunkEntities (getAllChunks store mid))) = false := by
      simp [validateFileIntegrity, beq_iff_eq]
      exact fun h => hbad h.symm
    simp [hv]

theorem getMedia_incomplete_detection_witness :
    getMetadata missingChunkStore "m2" = none ∧
      getMetadata
        { missingChunkStore with chunks := [] } "m" =
          some { media_id := "m", filename := "f", content_type := "image/png"
                 file_size := 2, chunk_count := 2, checksum := sha256Hex [7, 9]
                 created_at := 0, expiration_block := 0, btl_days := 7 } ∧
      getMedia { missingChunkStore with chunks := [] } "m" =
        { success := false, buffer := none, metadata := none
          error := some "Media chunks not found or incomplete" } := by
  have h := getMedia_incomplete_detection
    { missingChunkStore with chunks := [] } "m"
    { media_id := "m", filename := "f", content_type := "image/png"
      file_size := 2, chunk_count := 2, checksum := sha256Hex [7, 9]
      created_at := 0, expiration_block := 0, btl_days := 7 }
    (by decide)
  exact ⟨by decide, by decide, h.1 (by decide)⟩

theorem getMedia_integrity_witness :
    getMetadata missingChunkStore "m" =
        some { media_id := "m", filename := "f", content_type := "image/png"
               file_size := 2, chunk_count := 2, checksum := sha256Hex [7, 9]
               created_at := 0, expiration_block := 0, btl_days := 7 } ∧
      getAllChunks missingChunkStore "m" ≠ [] ∧
      getMedia missingChunkStore "m" =
        { success := false, buffer := none, metadata := none
          error := some "File integrity check failed" } := by
  have h := getMedia_integrity missingChunkStore "m"
    { media_id := "m", filename := "f", content_type := "image/png"
      file_size := 2, chunk_count := 2, checksum := sha256Hex [7, 9]
      created_at := 0, expiration_block := 0, btl_days := 7 }
    (by decide) (by decide)
  exact ⟨by decide, by decide, h.1 (by decide)⟩

/-- Claim C8 (code evaluation at the failing input): chunkFile produces
0-based chunk_index values ({0} for a 1-byte file), but ArkivStorage.storeChunk
persists the chunk_index attribute as chunk_index + 1, so after a successful
upload the persisted index set is {1..chunk_count}, not {0..chunk_count-1}:
the store-side invariant claimed by the spec does not hold for this backend. -/
theorem persisted_chunk_index_shifted :
    (∀ c : ChunkRecord, (storedEntityOf c).attr_chunk_index = c.chunk_index + 1) ∧
    (chunkFile sampleEnv [7] "mid1" (calculateExpirationBlock 0 7)).map
      (fun c => c.chunk_index) = [0] ∧
    (initiateUpload sampleEnv emptySt [7] "f.png" "image/png" "k8" "u8"
        7).1.success = true ∧
    (initiateUpload sampleEnv emptySt [7] "f.png" "image/png" "k8" "u8"
        7).2.store.chunks.map (fun e => e.attr_chunk_index) = [1] ∧
    (getMetadata (initiateUpload sampleEnv emptySt [7] "f.png" "image/png" "k8" "u8"
        7).2.store "mid1").map (fun m => m.chunk_count) = some 1 ∧
    ([1] : List Nat) ≠ [0] :=
  ⟨fun _ => rfl, by decide, by decide, by decide, by decide, by decide⟩
